import Mathlib

/-
Shallow embedding of the SPS30 SHDLC driver (src/src/lib.rs).

Bytes are modelled as `Nat` values below 256; `u8` wrapping arithmetic is
made explicit with `% 256`.  Rust `panic!`/`unwrap` failure is modelled by
`Option`, with `none` standing for a panic.  The external HDLC byte-stuffing
codec is out of scope (the spec treats it as an external collaborator), so
`receive_frame` operates on the destuffed byte sequence that `hdlc::decode`
returns, and `send_frame` produces the raw (pre-stuffing) byte sequence
handed to `hdlc::encode`.  `f32::from_be_bytes` is a bijective
reinterpretation of 4 bytes, so float fields are modelled by their 32-bit
big-endian bit patterns (as `Nat`).
-/

namespace Sps30Model

/-- Error type of the frame codec (Rust struct FrameError). -/
inductive FrameError
  | frameError
deriving DecidableEq

/-- Error type for opcode decoding (Rust struct CommandError). -/
inductive CommandError
  | commandError
deriving DecidableEq

/-- Error type for device-level failures (Rust struct DeviceError). -/
inductive DeviceError
  | deviceError
deriving DecidableEq

/-- The closed command enumeration (Rust enum Command). -/
inductive Command
  | startMeasurement
  | stopMeasurement
  | readMeasuredValue
  | sleep
  | wakeUp
  | startFanCleaning
  | rwAutoCleaningInterval
  | deviceInformation
  | readVersion
  | readDeviceStatusRegister
  | reset
deriving DecidableEq, Fintype

/-- Opcode byte of each command (Rust impl From of Command for u8). -/
def byteOfCommand : Command → Nat
  | .startMeasurement => 0x00
  | .stopMeasurement => 0x01
  | .readMeasuredValue => 0x03
  | .sleep => 0x10
  | .wakeUp => 0x11
  | .startFanCleaning => 0x56
  | .rwAutoCleaningInterval => 0x80
  | .deviceInformation => 0xD0
  | .readVersion => 0xD1
  | .readDeviceStatusRegister => 0xD2
  | .reset => 0xD3

/-- Opcode decoding (Rust impl TryFrom of u8 for Command).  The Rust
match on byte literals is rendered as the equivalent chain of equality
tests, with the wildcard arm returning CommandError. -/
def command_try_from (v : Nat) : Except CommandError Command :=
  if v = 0x00 then .ok .startMeasurement
  else if v = 0x01 then .ok .stopMeasurement
  else if v = 0x03 then .ok .readMeasuredValue
  else if v = 0x10 then .ok .sleep
  else if v = 0x11 then .ok .wakeUp
  else if v = 0x56 then .ok .startFanCleaning
  else if v = 0x80 then .ok .rwAutoCleaningInterval
  else if v = 0xD0 then .ok .deviceInformation
  else if v = 0xD1 then .ok .readVersion
  else if v = 0xD2 then .ok .readDeviceStatusRegister
  else if v = 0xD3 then .ok .reset
  else .error .commandError

instance {ε α : Type} [DecidableEq ε] [DecidableEq α] : DecidableEq (Except ε α) :=
  fun a b =>
    match a, b with
    | .ok x, .ok y =>
      if h : x = y then .isTrue (by rw [h]) else .isFalse (by simp [h])
    | .error x, .error y =>
      if h : x = y then .isTrue (by rw [h]) else .isFalse (by simp [h])
    | .ok _, .error _ => .isFalse (by simp)
    | .error _, .ok _ => .isFalse (by simp)

/-- A protocol frame (Rust struct Frame). -/
structure Frame where
  addr : Nat
  cmd : Command
  data : List Nat
deriving DecidableEq

/-- Checksum (Rust fn checksum): bitwise NOT of the 8-bit wrapping sum.
The wrapping fold keeps the accumulator below 256, and the `u8` bitwise
NOT of a value c below 256 is 255 - c. -/
def checksum (buf : List Nat) : Nat :=
  255 - buf.foldl (fun acc x => (acc + x) % 256) 0

/-- The 8-bit wrapping sum of a byte sequence, as the spec words it
(used to state the checksum property of C2). -/
def wrapping_sum (b : List Nat) : Nat :=
  b.sum % 256

/-- The raw outbound byte sequence built by send_frame before byte
stuffing: [addr, opcode, len as u8, payload..., checksum]. -/
def frame_bytes (f : Frame) : List Nat :=
  let buffer := f.addr :: byteOfCommand f.cmd :: (f.data.length % 256) :: f.data
  buffer ++ [checksum buffer]

/-- Encoding step of send_frame (Rust Sps30::send_frame, minus the
external hdlc::encode and port write): rejects a non-zero address,
otherwise yields the raw checksummed bytes. -/
def send_frame (f : Frame) : Except FrameError (List Nat) :=
  if f.addr = 0 then .ok (frame_bytes f) else .error .frameError

/-- An inbound-layout frame image with an explicit state byte:
[addr, opcode, state, len as u8, payload..., checksum].  This is the
destuffed byte sequence a device response carries; it is also the
"encoded bytes with the state byte synthetically set" used by the
round-trip property. -/
def encode_with_state (st : Nat) (f : Frame) : List Nat :=
  let body := f.addr :: byteOfCommand f.cmd :: st :: (f.data.length % 256) :: f.data
  body ++ [checksum body]

/-- Insert a synthetic state byte after the opcode of an encoded outbound
frame and recompute the trailing checksum (the adjustment the round-trip
property of the spec describes). -/
def insert_state (st : Nat) (enc : List Nat) : List Nat :=
  match enc.dropLast with
  | a :: c :: rest =>
    let body := a :: c :: st :: rest
    body ++ [checksum body]
  | l => l

/-- Decoding step of receive_frame (Rust Sps30::receive_frame, minus the
external frame reader and hdlc::decode): operates on the destuffed byte
sequence.  `none` models a panic (unwrap of an empty pop/remove, or of a
failed opcode decode); the checksum and length comparisons mirror the
source, including the `d.len() as u8` truncation in the length check. -/
def receive_frame (d : List Nat) : Option (Except FrameError (Nat × Frame)) :=
  match d.getLast? with
  | none => none
  | some c =>
    let d1 := d.dropLast
    if c = checksum d1 then
      match d1 with
      | addr :: d2 =>
        match d2 with
        | cmdByte :: d3 =>
          match command_try_from cmdByte with
          | .error _ => none
          | .ok cmd =>
            match d3 with
            | state :: d4 =>
              match d4 with
              | l :: payload =>
                if payload.length % 256 = l then
                  some (.ok (state, ⟨addr, cmd, payload⟩))
                else
                  some (.error .frameError)
              | [] => none
            | [] => none
        | [] => none
      | [] => none
    else
      some (.error .frameError)

/- Basic facts about commands and the checksum. -/

theorem byteOfCommand_lt (c : Command) : byteOfCommand c < 256 := by
  cases c <;> decide

theorem command_round (c : Command) :
    command_try_from (byteOfCommand c) = .ok c := by
  cases c <;> rfl

theorem wrap_foldl (b : List Nat) :
    ∀ a : Nat, b.foldl (fun acc x => (acc + x) % 256) (a % 256) = (a + b.sum) % 256 := by
  induction b with
  | nil => intro a; simp
  | cons x xs ih =>
    intro a
    have h1 : (a % 256 + x) % 256 = (a + x) % 256 := by
      conv_rhs => rw [Nat.add_mod]
      simp [Nat.add_mod]
    simp only [List.foldl_cons, h1]
    rw [ih (a + x)]
    simp [List.sum_cons]
    ring_nf

theorem checksum_eq (b : List Nat) : checksum b = 255 - b.sum % 256 := by
  have h := wrap_foldl b 0
  simp at h
  unfold checksum
  rw [h]

theorem checksum_lt (b : List Nat) : checksum b < 256 := by
  unfold checksum; omega

/-- Decoding the inbound image of a frame always succeeds and returns the
state byte and the frame itself. -/
theorem receive_encode_with_state (st : Nat) (f : Frame) :
    receive_frame (encode_with_state st f) = some (.ok (st, f)) := by
  unfold encode_with_state receive_frame
  simp only [List.getLast?_concat, List.dropLast_concat]
  simp [command_round]

theorem sum_set_add (l : List Nat) (i v : Nat) (h : i < l.length) :
    (l.set i v).sum + l.getD i 0 = l.sum + v := by
  induction l generalizing i with
  | nil => simp at h
  | cons x xs ih =>
    cases i with
    | zero => simp [List.set]; omega
    | succ n =>
      have hn : n < xs.length := by simpa using h
      have := ih n hn
      simp only [List.set, List.sum_cons, List.getD_cons_succ]
      omega

theorem getD_lt_of_bytes (l : List Nat) (i : Nat) (h : i < l.length)
    (hb : ∀ x ∈ l, x < 256) : l.getD i 0 < 256 := by
  have he : l.getD i 0 = l[i] := by
    simp [List.getD_eq_getElem?_getD, List.getElem?_eq_getElem h]
  rw [he]
  exact hb _ (List.getElem_mem h)

theorem checksum_set_ne (l : List Nat) (i v : Nat) (h : i < l.length)
    (hb : ∀ x ∈ l, x < 256) (hv : v < 256) (hne : v ≠ l.getD i 0) :
    checksum (l.set i v) ≠ checksum l := by
  intro heq
  rw [checksum_eq, checksum_eq] at heq
  have hs1 : (l.set i v).sum % 256 < 256 := Nat.mod_lt _ (by omega)
  have hs2 : l.sum % 256 < 256 := Nat.mod_lt _ (by omega)
  have h1 : (l.set i v).sum % 256 = l.sum % 256 := by omega
  have h2 := sum_set_add l i v h
  have hg := getD_lt_of_bytes l i h hb
  have h3 : (l.sum + v) % 256 = (l.sum + l.getD i 0) % 256 := by
    have : l.sum + v = (l.set i v).sum + l.getD i 0 := by omega
    rw [this, Nat.add_mod, h1, ← Nat.add_mod]
  have h4 : v % 256 = l.getD i 0 % 256 := by
    have hm : Nat.ModEq 256 (l.sum + v) (l.sum + l.getD i 0) := h3
    exact Nat.ModEq.add_left_cancel' l.sum hm
  rw [Nat.mod_eq_of_lt hv, Nat.mod_eq_of_lt hg] at h4
  exact hne h4

/-- Decoding a trailing-checksum byte sequence whose last byte does not
match the checksum of the rest yields a FrameError. -/
theorem receive_frame_checksum_ne (body : List Nat) (c : Nat)
    (h : ¬ c = checksum body) :
    receive_frame (body ++ [c]) = some (.error .frameError) := by
  unfold receive_frame
  simp only [List.getLast?_concat, List.dropLast_concat]
  simp [h]

/-- Changing any single byte of a checksummed frame image makes the
checksum test of receive_frame fail. -/
theorem flip_breaks (body : List Nat) (i v : Nat)
    (hb : ∀ x ∈ body, x < 256) (hv : v < 256) (hi : i ≤ body.length)
    (hne : v ≠ (body ++ [checksum body]).getD i 0) :
    receive_frame ((body ++ [checksum body]).set i v) = some (.error .frameError) := by
  rcases Nat.lt_or_ge i body.length with hlt | hge
  · rw [List.set_append_left _ _ hlt]
    have hgd : (body ++ [checksum body]).getD i 0 = body.getD i 0 := by
      simp [List.getD_eq_getElem?_getD, List.getElem?_append_left hlt]
    rw [hgd] at hne
    have hne2 := checksum_set_ne body i v hlt hb hv hne
    have hlt2 : i < (body.set i v).length := by simpa using hlt
    have hck : ¬ checksum body = checksum (body.set i v) := fun hh => hne2 hh.symm
    exact receive_frame_checksum_ne _ _ hck
  · have hieq : i = body.length := le_antisymm hi hge
    subst hieq
    rw [List.set_append_right _ _ (le_refl _)]
    simp only [Nat.sub_self, List.set]
    have hgd : (body ++ [checksum body]).getD body.length 0 = checksum body := by
      simp [List.getD_eq_getElem?_getD, List.getElem?_append_right (le_refl _)]
    rw [hgd] at hne
    exact receive_frame_checksum_ne _ _ hne

/-- Decoding a well-checksummed inbound image whose body is shorter than
the 4-byte header panics (none): the header pops/removes run out of bytes,
or the opcode unwrap fails first. -/
theorem decode_short_body (body : List Nat) (hlen : body.length < 4) (c : Nat)
    (hc : c = checksum body) :
    receive_frame (body ++ [c]) = none := by
  unfold receive_frame
  simp only [List.getLast?_concat, List.dropLast_concat]
  rcases body with _ | ⟨a, _ | ⟨b, _ | ⟨e, _ | ⟨l, rest⟩⟩⟩⟩
  · simp [hc]
  · simp [hc]
  · cases h : command_try_from b <;> simp [hc, h]
  · cases h : command_try_from b <;> simp [hc, h]
  · simp at hlen
    omega

/-- C1: for every Frame with address 0 and payload of at most 255 bytes,
send_frame encodes it successfully, and receive_frame on those encoded
bytes with the inbound state byte synthetically set to 0 (and the checksum
adjusted accordingly) yields state 0 and a frame with the same address,
command and payload as the original. -/
theorem c1_roundtrip (f : Frame) (h0 : f.addr = 0) (_h1 : f.data.length ≤ 255) :
    send_frame f = .ok (frame_bytes f) ∧
    receive_frame (insert_state 0 (frame_bytes f)) = some (.ok (0, f)) := by
  constructor
  · unfold send_frame
    rw [if_pos h0]
  · have he : insert_state 0 (frame_bytes f) = encode_with_state 0 f := by
      unfold insert_state frame_bytes encode_with_state
      simp only [List.dropLast_concat]
    rw [he]
    exact receive_encode_with_state 0 f

/-- Witness for C1 at the concrete frame (0, DeviceInformation, [1, 2]). -/
theorem c1_roundtrip_witness :
    send_frame ⟨0, .deviceInformation, [1, 2]⟩ =
      .ok (frame_bytes ⟨0, .deviceInformation, [1, 2]⟩) ∧
    receive_frame (insert_state 0 (frame_bytes ⟨0, .deviceInformation, [1, 2]⟩)) =
      some (.ok (0, ⟨0, .deviceInformation, [1, 2]⟩)) :=
  c1_roundtrip ⟨0, .deviceInformation, [1, 2]⟩ rfl (by decide)

/-- C2: the checksum of any byte sequence is the bitwise NOT (255 minus)
of its 8-bit wrapping sum; and changing any single byte of an encoded
frame image (inbound layout with state byte 0) to a different byte value
before decoding makes receive_frame return a FrameError. -/
theorem c2_checksum_flip :
    (∀ b : List Nat, checksum b = 255 - wrapping_sum b) ∧
    (∀ (f : Frame) (i v : Nat), f.addr = 0 → (∀ x ∈ f.data, x < 256) →
      i < (encode_with_state 0 f).length → v < 256 →
      v ≠ (encode_with_state 0 f).getD i 0 →
      receive_frame ((encode_with_state 0 f).set i v) = some (.error .frameError)) := by
  constructor
  · intro b
    rw [checksum_eq]
    rfl
  · intro f i v h0 hdata hi hv hne
    have hbytes : ∀ x ∈ f.addr :: byteOfCommand f.cmd :: 0 :: (f.data.length % 256) :: f.data,
        x < 256 := by
      intro x hx
      simp only [List.mem_cons] at hx
      rcases hx with h | h | h | h | h
      · subst h; rw [h0]; omega
      · subst h; exact byteOfCommand_lt f.cmd
      · omega
      · subst h; exact Nat.mod_lt _ (by omega)
      · exact hdata x h
    have hlen : (encode_with_state 0 f).length =
        (f.addr :: byteOfCommand f.cmd :: 0 :: (f.data.length % 256) :: f.data).length + 1 := by
      unfold encode_with_state
      simp
    exact flip_breaks _ i v hbytes hv (by rw [hlen] at hi; omega) hne

/-- Witness for C2 part 2: flipping the address byte of the encoded empty
StartMeasurement frame from 0 to 1 yields a FrameError. -/
theorem c2_checksum_flip_witness :
    receive_frame ((encode_with_state 0 ⟨0, .startMeasurement, []⟩).set 0 1) =
      some (.error .frameError) :=
  c2_checksum_flip.2 ⟨0, .startMeasurement, []⟩ 0 1 rfl (by decide) (by decide)
    (by decide) (by decide)

set_option maxRecDepth 4000 in
/-- C5 counterexample: an inbound frame declaring length 0 but carrying 256
payload bytes passes the length check (the source compares the count cast
to u8, so 256 wraps to 0) and decodes to a complete frame instead of
returning a FrameError, refuting the universally quantified claim. -/
theorem c5_counterexample :
    receive_frame (([0, 0, 0, 0] ++ List.replicate 256 0) ++ [255]) =
      some (.ok (0, ⟨0, .startMeasurement, List.replicate 256 0⟩)) ∧
    (List.replicate 256 (0 : Nat)).length ≠ 0 := by
  constructor
  · rfl
  · simp

/-- C5 (amended): receive_frame returns a FrameError (never a partial
frame) whenever the declared length byte differs from the actual payload
byte count reduced modulo 256 — the source compares the count cast to u8,
so only the residue is checked. -/
theorem c5_length_mismatch (addr cmdB st l : Nat) (payload : List Nat) (c : Command)
    (hcmd : command_try_from cmdB = .ok c)
    (hlen : payload.length % 256 ≠ l) :
    receive_frame ((addr :: cmdB :: st :: l :: payload) ++
      [checksum (addr :: cmdB :: st :: l :: payload)]) = some (.error .frameError) := by
  unfold receive_frame
  simp only [List.getLast?_concat, List.dropLast_concat]
  simp [hcmd, hlen]

/-- Witness for C5 (amended): declared length 5 with empty payload. -/
theorem c5_length_mismatch_witness :
    receive_frame (([0, 0, 0, 5] : List Nat) ++ [checksum [0, 0, 0, 5]]) =
      some (.error .frameError) :=
  c5_length_mismatch 0 0 0 5 [] .startMeasurement rfl (by decide)

/-- C6 counterexample: a well-checksummed inbound frame carrying the
unknown opcode 0x02 makes receive_frame panic (the unwrap of the failed
opcode decode, modelled as none) instead of failing with a command-decode
error value. -/
theorem c6_counterexample : receive_frame [0, 2, 0, 0, 253] = none := by rfl

/-- C6 (amended): the command table is a bijection — every Command round
trips through its opcode byte, and every opcode byte outside the table
decodes to CommandError — but receive_frame on a frame carrying an unknown
opcode panics via unwrap (modelled as none) rather than returning a
command-decode error. -/
theorem c6_command_table :
    (∀ c : Command, command_try_from (byteOfCommand c) = .ok c) ∧
    (∀ b : Nat, (∀ c : Command, byteOfCommand c ≠ b) →
      command_try_from b = .error .commandError) ∧
    (∀ (addr st l b : Nat) (payload : List Nat),
      command_try_from b = .error .commandError →
      receive_frame ((addr :: b :: st :: l :: payload) ++
        [checksum (addr :: b :: st :: l :: payload)]) = none) := by
  refine ⟨command_round, ?_, ?_⟩
  · intro b h
    have g0 : ¬ b = 0x00 := fun hh => h .startMeasurement hh.symm
    have g1 : ¬ b = 0x01 := fun hh => h .stopMeasurement hh.symm
    have g2 : ¬ b = 0x03 := fun hh => h .readMeasuredValue hh.symm
    have g3 : ¬ b = 0x10 := fun hh => h .sleep hh.symm
    have g4 : ¬ b = 0x11 := fun hh => h .wakeUp hh.symm
    have g5 : ¬ b = 0x56 := fun hh => h .startFanCleaning hh.symm
    have g6 : ¬ b = 0x80 := fun hh => h .rwAutoCleaningInterval hh.symm
    have g7 : ¬ b = 0xD0 := fun hh => h .deviceInformation hh.symm
    have g8 : ¬ b = 0xD1 := fun hh => h .readVersion hh.symm
    have g9 : ¬ b = 0xD2 := fun hh => h .readDeviceStatusRegister hh.symm
    have g10 : ¬ b = 0xD3 := fun hh => h .reset hh.symm
    simp [command_try_from, g0, g1, g2, g3, g4, g5, g6, g7, g8, g9, g10]
  · intro addr st l b payload hb
    unfold receive_frame
    simp only [List.getLast?_concat, List.dropLast_concat]
    simp [hb]

/-- Witness for C6 (amended) parts 2 and 3 at opcodes 2 and 5. -/
theorem c6_command_table_witness :
    command_try_from 2 = .error .commandError ∧
    receive_frame (([1, 5, 0, 0] : List Nat) ++ [checksum [1, 5, 0, 0]]) = none :=
  ⟨c6_command_table.2.1 2 (by decide), c6_command_table.2.2 1 0 0 5 [] (by decide)⟩

/-- C10 counterexample: the destuffed one-byte frame [0] is shorter than 5
bytes, yet receive_frame returns Err(FrameError) — its checksum test fails
before any panicking pop/remove — refuting the claim that every short
frame panics. -/
theorem c10_counterexample :
    receive_frame [0] = some (.error .frameError) ∧ ([0] : List Nat).length < 5 :=
  ⟨rfl, by decide⟩

/-- C10 (amended): receive_frame never returns a decoded frame for a
destuffed input shorter than 5 bytes; it panics via unwrap (none) whenever
the input is empty or its trailing byte matches the checksum of the rest,
and otherwise returns a FrameError from the checksum test. -/
theorem c10_short_frames (d : List Nat) (h : d.length < 5) :
    (∀ st fr, receive_frame d ≠ some (.ok (st, fr))) ∧
    (d = [] ∨ d.getLast? = some (checksum d.dropLast) → receive_frame d = none) ∧
    (d ≠ [] → d.getLast? ≠ some (checksum d.dropLast) →
      receive_frame d = some (.error .frameError)) := by
  rcases eq_or_ne d [] with rfl | hne
  · refine ⟨?_, ?_, ?_⟩
    · intro st fr
      simp [receive_frame]
    · intro _
      simp [receive_frame]
    · intro h'
      exact absurd rfl h'
  · have hd : d.dropLast ++ [d.getLast hne] = d := List.dropLast_concat_getLast hne
    have hpos : 0 < d.length := List.length_pos.mpr hne
    have hlen : d.dropLast.length < 4 := by
      have := List.length_dropLast d
      omega
    have hq : d.getLast? = some (d.getLast hne) := List.getLast?_eq_getLast d hne
    by_cases hc : d.getLast hne = checksum d.dropLast
    · have hnone : receive_frame d = none := by
        rw [← hd]
        exact decode_short_body _ hlen _ hc
      refine ⟨?_, ?_, ?_⟩
      · intro st fr
        simp [hnone]
      · intro _
        exact hnone
      · intro _ h2
        exact absurd (by rw [hq, hc]) h2
    · have herr : receive_frame d = some (.error .frameError) := by
        rw [← hd]
        exact receive_frame_checksum_ne _ _ hc
      refine ⟨?_, ?_, ?_⟩
      · intro st fr
        simp [herr]
      · rintro (h1 | h1)
        · exact absurd h1 hne
        · rw [hq] at h1
          exact absurd (Option.some.inj h1) hc
      · intro _ _
        exact herr

/-- Witness for C10 (amended): the frame [255] (whose single byte equals
the checksum of the empty rest) makes receive_frame panic. -/
theorem c10_short_frames_witness : receive_frame [255] = none :=
  (c10_short_frames [255] (by decide)).2.1 (Or.inr (by decide))

/-- Rust range slicing data[i..j]: panics (none) unless i ≤ j ≤ len. -/
def rangeSlice (l : List Nat) (i j : Nat) : Option (List Nat) :=
  if i ≤ j ∧ j ≤ l.length then some ((l.drop i).take (j - i)) else none

/-- Rust fn slice_to_f32: try_into a 4-byte array (unwrap panics on any
other length, modelled none) followed by f32::from_be_bytes, which
reinterprets the 4 bytes; the float is represented by its 32-bit
big-endian bit pattern. -/
def slice_to_f32 (a : List Nat) : Option Nat :=
  match a with
  | [b0, b1, b2, b3] => some (((b0 * 256 + b1) * 256 + b2) * 256 + b3)
  | _ => none

/-- The 32-bit big-endian word found at offset k of a byte list (used to
state what the measurement decoder extracts). -/
def word32At (d : List Nat) (k : Nat) : Nat :=
  ((d.getD k 0 * 256 + d.getD (k + 1) 0) * 256 + d.getD (k + 2) 0) * 256 + d.getD (k + 3) 0

/-- The ten measurement channels (Rust struct Sps30Measurement), each field
holding the 32-bit big-endian bit pattern of the decoded f32. -/
structure Sps30Measurement where
  mass_1_0 : Nat
  mass_2_5 : Nat
  mass_4_0 : Nat
  mass_10 : Nat
  concentration_pm005 : Nat
  concentration_pm010 : Nat
  concentration_pm025 : Nat
  concentration_pm040 : Nat
  concentration_pm100 : Nat
  particle : Nat
deriving DecidableEq

/-- Payload interpretation of Sps30::read_measurement after the response
frame has been received and unwrapped: an empty payload yields Ok(None),
otherwise ten fixed-offset big-endian 4-byte slices are taken (each
slicing panicking, none, when it runs past the payload). -/
def read_measurement_payload (d : List Nat) :
    Option (Except DeviceError (Option Sps30Measurement)) :=
  if 0 < d.length then do
    let mass_1_0 ← rangeSlice d 0 4 >>= slice_to_f32
    let mass_2_5 ← rangeSlice d 4 8 >>= slice_to_f32
    let mass_4_0 ← rangeSlice d 8 12 >>= slice_to_f32
    let mass_10 ← rangeSlice d 12 16 >>= slice_to_f32
    let concentration_pm005 ← rangeSlice d 16 20 >>= slice_to_f32
    let concentration_pm010 ← rangeSlice d 20 24 >>= slice_to_f32
    let concentration_pm025 ← rangeSlice d 24 28 >>= slice_to_f32
    let concentration_pm040 ← rangeSlice d 28 32 >>= slice_to_f32
    let concentration_pm100 ← rangeSlice d 32 36 >>= slice_to_f32
    let particle ← rangeSlice d 36 40 >>= slice_to_f32
    some (.ok (some ⟨mass_1_0, mass_2_5, mass_4_0, mass_10, concentration_pm005,
      concentration_pm010, concentration_pm025, concentration_pm040,
      concentration_pm100, particle⟩))
  else some (.ok none)

/-- Rust fn to_bool: 0 is false, anything else true. -/
def to_bool (i : Nat) : Bool :=
  match i with
  | 0 => false
  | _ => true

/-- Fault kinds (Rust enum Sps30Fault). -/
inductive Sps30Fault
  | fan
  | laser
  | fanSpeed
deriving DecidableEq

/-- Payload interpretation of Sps30::read_device_status after the response
frame has been received and unwrapped: length must be exactly 5, fault
bits are tested on bytes 3 and 1, and the faults are pushed in the order
Fan, Laser, FanSpeed. -/
def read_device_status_payload (d : List Nat) :
    Except DeviceError (Option (List Sps30Fault)) :=
  if d.length ≠ 5 then .error .deviceError
  else
    let fan_err := to_bool ((d.getD 3 0) &&& (1 <<< 4))
    let laser_err := to_bool ((d.getD 3 0) &&& (1 <<< 5))
    let speed_err := to_bool ((d.getD 1 0) &&& (1 <<< 5))
    let faults := (if fan_err then [Sps30Fault.fan] else []) ++
      (if laser_err then [Sps30Fault.laser] else []) ++
      (if speed_err then [Sps30Fault.fanSpeed] else [])
    if 0 < faults.length then .ok (some faults) else .ok none

/-- UTF-8 decoding of a byte sequence into its scalar values, modelling
the validation performed by the Rust core function str::from_utf8: ASCII,
2/3/4-byte sequences with the standard continuation ranges, rejecting
overlong forms, surrogates and values above 0x10FFFF. -/
def utf8Decode : List Nat → Option (List Nat)
  | [] => some []
  | b0 :: rest =>
    if b0 ≤ 0x7F then (utf8Decode rest).map (fun cs => b0 :: cs)
    else if b0 < 0xC2 then none
    else if b0 ≤ 0xDF then
      match rest with
      | b1 :: rest1 =>
        if 0x80 ≤ b1 ∧ b1 ≤ 0xBF then
          (utf8Decode rest1).map (fun cs => ((b0 - 0xC0) * 64 + (b1 - 0x80)) :: cs)
        else none
      | [] => none
    else if b0 ≤ 0xEF then
      match rest with
      | b1 :: b2 :: rest2 =>
        if ((if b0 = 0xE0 then 0xA0 else 0x80) ≤ b1 ∧
            b1 ≤ (if b0 = 0xED then 0x9F else 0xBF)) ∧
            (0x80 ≤ b2 ∧ b2 ≤ 0xBF) then
          (utf8Decode rest2).map
            (fun cs => (((b0 - 0xE0) * 64 + (b1 - 0x80)) * 64 + (b2 - 0x80)) :: cs)
        else none
      | _ => none
    else if b0 ≤ 0xF4 then
      match rest with
      | b1 :: b2 :: b3 :: rest3 =>
        if ((if b0 = 0xF0 then 0x90 else 0x80) ≤ b1 ∧
            b1 ≤ (if b0 = 0xF4 then 0x8F else 0xBF)) ∧
            (0x80 ≤ b2 ∧ b2 ≤ 0xBF) ∧ (0x80 ≤ b3 ∧ b3 ≤ 0xBF) then
          (utf8Decode rest3).map
            (fun cs => ((((b0 - 0xF0) * 64 + (b1 - 0x80)) * 64 + (b2 - 0x80)) * 64
              + (b3 - 0x80)) :: cs)
        else none
      | _ => none
    else none

/-- Version fields (Rust struct Sps30Version); the source formats these
numbers into strings, which is abstracted to the numeric inputs of the
formatting. -/
structure Sps30Version where
  firmware_major : Nat
  firmware_minor : Nat
  hardware_rev : Nat
  sdlc_major : Nat
  sdlc_minor : Nat
deriving DecidableEq

/-- Session state (Rust struct Sps30): the running flag, plus the log of
raw (pre-stuffing) frames written to the port, which abstracts the owned
transport handle. -/
structure Sps30 where
  running : Bool
  sent : List (List Nat)
deriving DecidableEq

/-- Sps30::new: fresh session, running is false, nothing sent. -/
def Sps30.new : Sps30 :=
  ⟨false, []⟩

/-- The send/receive round trip every public operation performs:
send_frame(f).unwrap() followed by receive_frame().unwrap(), with the
device's destuffed response supplied by the environment.  none models a
panic of either unwrap (send error, receive panic, or receive frame
error). -/
def transact (s : Sps30) (req : Frame) (resp : List Nat) :
    Option ((Nat × Frame) × Sps30) :=
  match send_frame req with
  | .error _ => none
  | .ok enc =>
    match receive_frame resp with
    | some (.ok r) => some (r, { s with sent := s.sent ++ [enc] })
    | _ => none

/-- Rust Sps30::start_measurement: guarded by the running flag, sends
StartMeasurement with payload [0x01, 0x03], fails on a non-zero response
state; note that the source never sets running to true on success. -/
def Sps30.start_measurement (s : Sps30) (resp : List Nat) :
    Option (Except DeviceError Unit × Sps30) :=
  if s.running then some (.error .deviceError, s)
  else
    match transact s ⟨0, .startMeasurement, [1, 3]⟩ resp with
    | none => none
    | some ((st, _fr), s1) =>
      if st = 0 then some (.ok (), s1) else some (.error .deviceError, s1)

/-- Rust Sps30::device_reset: sends Reset with empty payload (the 100 ms
sleep is irrelevant to state), then sets running to false. -/
def Sps30.device_reset (s : Sps30) (resp : List Nat) :
    Option (Except DeviceError Unit × Sps30) :=
  match transact s ⟨0, .reset, []⟩ resp with
  | none => none
  | some (_, s1) => some (.ok (), { s1 with running := false })

/-- Rust Sps30::get_device_info: sends DeviceInformation with payload [0],
decodes the response payload as UTF-8 via str::from_utf8(..).unwrap()
(none models the panic on invalid UTF-8), ignoring the state byte. -/
def Sps30.get_device_info (s : Sps30) (resp : List Nat) :
    Option (Option (List Nat) × Sps30) :=
  match transact s ⟨0, .deviceInformation, [0]⟩ resp with
  | none => none
  | some ((_st, fr), s1) =>
    match utf8Decode fr.data with
    | none => none
    | some cps => some (some cps, s1)

/-- Rust Sps30::read_version: sends ReadVersion with empty payload,
requires a 7-byte response payload, extracts bytes 0, 1, 3, 5, 6. -/
def Sps30.read_version (s : Sps30) (resp : List Nat) :
    Option (Except DeviceError Sps30Version × Sps30) :=
  match transact s ⟨0, .readVersion, []⟩ resp with
  | none => none
  | some ((_st, fr), s1) =>
    if fr.data.length = 7 then
      some (.ok ⟨fr.data.getD 0 0, fr.data.getD 1 0, fr.data.getD 3 0,
        fr.data.getD 5 0, fr.data.getD 6 0⟩, s1)
    else some (.error .deviceError, s1)

/-- Rust Sps30::read_measurement: sends ReadMeasuredValue with empty
payload, then interprets the response payload. -/
def Sps30.read_measurement (s : Sps30) (resp : List Nat) :
    Option (Except DeviceError (Option Sps30Measurement) × Sps30) :=
  match transact s ⟨0, .readMeasuredValue, []⟩ resp with
  | none => none
  | some ((_st, fr), s1) =>
    match read_measurement_payload fr.data with
    | none => none
    | some r => some (r, s1)

/-- Rust Sps30::read_device_status: sends ReadDeviceStatusRegister with
payload [0x01], then interprets the response payload. -/
def Sps30.read_device_status (s : Sps30) (resp : List Nat) :
    Option (Except DeviceError (Option (List Sps30Fault)) × Sps30) :=
  match transact s ⟨0, .readDeviceStatusRegister, [1]⟩ resp with
  | none => none
  | some ((_st, fr), s1) => some (read_device_status_payload fr.data, s1)

/-- The session states reachable from Sps30::new through the public
operations, with arbitrary device responses. -/
inductive Reachable : Sps30 → Prop
  | new : Reachable Sps30.new
  | start_measurement {s resp r s1} : Reachable s →
      Sps30.start_measurement s resp = some (r, s1) → Reachable s1
  | device_reset {s resp r s1} : Reachable s →
      Sps30.device_reset s resp = some (r, s1) → Reachable s1
  | get_device_info {s resp r s1} : Reachable s →
      Sps30.get_device_info s resp = some (r, s1) → Reachable s1
  | read_version {s resp r s1} : Reachable s →
      Sps30.read_version s resp = some (r, s1) → Reachable s1
  | read_measurement {s resp r s1} : Reachable s →
      Sps30.read_measurement s resp = some (r, s1) → Reachable s1
  | read_device_status {s resp r s1} : Reachable s →
      Sps30.read_device_status s resp = some (r, s1) → Reachable s1

theorem take4_drop (d : List Nat) (k : Nat) (h : k + 4 ≤ d.length) :
    (d.drop k).take 4 =
      [d.getD k 0, d.getD (k + 1) 0, d.getD (k + 2) 0, d.getD (k + 3) 0] := by
  have h0 : k < d.length := by omega
  have h1 : k + 1 < d.length := by omega
  have h2 : k + 2 < d.length := by omega
  have h3 : k + 3 < d.length := by omega
  rw [List.drop_eq_getElem_cons h0, List.drop_eq_getElem_cons h1,
    List.drop_eq_getElem_cons h2, List.drop_eq_getElem_cons h3]
  simp only [List.take_succ_cons, List.take_zero]
  simp only [List.getD_eq_getElem?_getD, List.getElem?_eq_getElem, h0, h1, h2, h3,
    Option.getD_some]

theorem slice_f32_at (d : List Nat) (k j : Nat) (hj : j = k + 4) (h : j ≤ d.length) :
    rangeSlice d k j >>= slice_to_f32 = some (word32At d k) := by
  subst hj
  unfold rangeSlice
  rw [if_pos ⟨by omega, h⟩]
  have ht : k + 4 - k = 4 := by omega
  rw [ht, take4_drop d k h]
  rfl

/-- C4 counterexample: a 41-byte payload is non-empty and not 40 bytes
long, yet the payload interpretation of read_measurement returns
Ok(Some(..)) decoded from the first 40 bytes (silent truncation) instead
of the DeviceError the claim requires. -/
theorem c4_counterexample :
    read_measurement_payload (List.replicate 41 0) =
      some (.ok (some ⟨0, 0, 0, 0, 0, 0, 0, 0, 0, 0⟩)) ∧
    (List.replicate 41 (0 : Nat)).length ≠ 40 ∧
    (List.replicate 41 (0 : Nat)).length ≠ 0 := by
  refine ⟨rfl, by simp, by simp⟩

/-- C4 (amended): the payload interpretation of read_measurement returns
Ok(None) on an empty payload; for any payload of at least 40 bytes it
returns Ok(Some(..)) with the ten fields decoded as consecutive big-endian
4-byte words at offsets 0, 4, ..., 36 (so payloads longer than 40 bytes
are silently truncated to their first 40 bytes, not rejected); and for
payload lengths 1..39 it panics (none) on an out-of-range slice instead
of returning a DeviceError. -/
theorem c4_measurement_payload (d : List Nat) :
    (d.length = 0 → read_measurement_payload d = some (.ok none)) ∧
    (40 ≤ d.length → read_measurement_payload d =
      some (.ok (some ⟨word32At d 0, word32At d 4, word32At d 8, word32At d 12,
        word32At d 16, word32At d 20, word32At d 24, word32At d 28,
        word32At d 32, word32At d 36⟩))) ∧
    (0 < d.length → d.length < 40 → read_measurement_payload d = none) := by
  refine ⟨?_, ?_, ?_⟩
  · intro h
    unfold read_measurement_payload
    rw [if_neg (by omega)]
  · intro h
    unfold read_measurement_payload
    rw [if_pos (by omega)]
    rw [slice_f32_at d 0 4 rfl (by omega), slice_f32_at d 4 8 rfl (by omega),
      slice_f32_at d 8 12 rfl (by omega), slice_f32_at d 12 16 rfl (by omega),
      slice_f32_at d 16 20 rfl (by omega), slice_f32_at d 20 24 rfl (by omega),
      slice_f32_at d 24 28 rfl (by omega), slice_f32_at d 28 32 rfl (by omega),
      slice_f32_at d 32 36 rfl (by omega), slice_f32_at d 36 40 rfl (by omega)]
    rfl
  · intro h1 h2
    unfold read_measurement_payload
    rw [if_pos h1]
    have h36 : rangeSlice d 36 40 >>= slice_to_f32 = none := by
      unfold rangeSlice
      rw [if_neg (by omega)]
      rfl
    refine Option.bind_eq_none.mpr ?_
    intro a0 _
    refine Option.bind_eq_none.mpr ?_
    intro a1 _
    refine Option.bind_eq_none.mpr ?_
    intro a2 _
    refine Option.bind_eq_none.mpr ?_
    intro a3 _
    refine Option.bind_eq_none.mpr ?_
    intro a4 _
    refine Option.bind_eq_none.mpr ?_
    intro a5 _
    refine Option.bind_eq_none.mpr ?_
    intro a6 _
    refine Option.bind_eq_none.mpr ?_
    intro a7 _
    refine Option.bind_eq_none.mpr ?_
    intro a8 _
    rw [h36]
    rfl

/-- Witness for C4 (amended) at the empty payload, a 40-byte zero payload
and the 2-byte payload [0, 0]. -/
theorem c4_measurement_payload_witness :
    read_measurement_payload [] = some (.ok none) ∧
    read_measurement_payload (List.replicate 40 0) =
      some (.ok (some ⟨word32At (List.replicate 40 0) 0, word32At (List.replicate 40 0) 4,
        word32At (List.replicate 40 0) 8, word32At (List.replicate 40 0) 12,
        word32At (List.replicate 40 0) 16, word32At (List.replicate 40 0) 20,
        word32At (List.replicate 40 0) 24, word32At (List.replicate 40 0) 28,
        word32At (List.replicate 40 0) 32, word32At (List.replicate 40 0) 36⟩)) ∧
    read_measurement_payload [0, 0] = none :=
  ⟨(c4_measurement_payload []).1 rfl,
   (c4_measurement_payload (List.replicate 40 0)).2.1 (by simp),
   (c4_measurement_payload [0, 0]).2.2 (by decide) (by decide)⟩

theorem to_bool_pos (n : Nat) (h : 0 < n) : to_bool n = true := by
  cases n with
  | zero => omega
  | succ m => rfl

theorem to_bool_and_two_pow (n k : Nat) : to_bool (n &&& 2 ^ k) = n.testBit k := by
  rw [Nat.and_two_pow]
  cases h : n.testBit k
  · simp [to_bool]
  · simp only [Bool.toNat_true, one_mul]
    exact to_bool_pos _ (Nat.two_pow_pos k)

/-- C7: read_device_status's payload interpretation rejects any length
other than 5 with DeviceError; on a 5-byte payload it derives the faults
from bit 4 of byte index 3 (Fan), bit 5 of byte index 3 (Laser) and bit 5
of byte index 1 (FanSpeed), returning Ok(None) when no fault bit is set
and otherwise Ok(Some(faults)) in the fixed order Fan, Laser, FanSpeed. -/
theorem c7_device_status (d : List Nat) :
    (d.length ≠ 5 → read_device_status_payload d = .error .deviceError) ∧
    (d.length = 5 → read_device_status_payload d =
      (let faults := (if (d.getD 3 0).testBit 4 then [Sps30Fault.fan] else []) ++
        (if (d.getD 3 0).testBit 5 then [Sps30Fault.laser] else []) ++
        (if (d.getD 1 0).testBit 5 then [Sps30Fault.fanSpeed] else [])
       if faults = [] then .ok none else .ok (some faults))) := by
  constructor
  · intro h
    unfold read_device_status_payload
    rw [if_pos h]
  · intro h
    unfold read_device_status_payload
    rw [if_neg (by omega)]
    have e4 : (1 <<< 4 : Nat) = 2 ^ 4 := by decide
    have e5 : (1 <<< 5 : Nat) = 2 ^ 5 := by decide
    rw [e4, e5, to_bool_and_two_pow, to_bool_and_two_pow, to_bool_and_two_pow]
    cases hf : (d.getD 3 0).testBit 4 <;> cases hl : (d.getD 3 0).testBit 5 <;>
      cases hs : (d.getD 1 0).testBit 5 <;> simp

/-- Witness for C7 at the spec's example payloads and the empty payload. -/
theorem c7_device_status_witness :
    read_device_status_payload [0, 0, 0, 48, 0] =
      .ok (some [Sps30Fault.fan, Sps30Fault.laser]) ∧
    read_device_status_payload [0, 0, 0, 0, 0] = .ok none ∧
    read_device_status_payload [] = .error .deviceError := by
  refine ⟨?_, ?_, ?_⟩
  · have h := (c7_device_status [0, 0, 0, 48, 0]).2 rfl
    rw [h]
    decide
  · have h := (c7_device_status [0, 0, 0, 0, 0]).2 rfl
    rw [h]
    decide
  · exact (c7_device_status []).1 (by decide)

/-- C8 counterexample: a well-formed DeviceInformation response whose
1-byte payload 0xFF is not valid UTF-8 makes get_device_info panic (the
unwrap of str::from_utf8, modelled as none) instead of propagating a
failure value to the caller. -/
theorem c8_counterexample :
    Sps30.get_device_info Sps30.new [0, 208, 0, 1, 255, 47] = none := by rfl

/-- C8 (amended): get_device_info decodes the validated response payload
as UTF-8 and returns Some of the decoded text; when the payload is not
valid UTF-8 the source panics via unwrap (modelled as none) instead of
propagating the failure to the caller.  The response state byte is
ignored. -/
theorem c8_device_info (s : Sps30) (st : Nat) (payload : List Nat) :
    Sps30.get_device_info s (encode_with_state st ⟨0, .deviceInformation, payload⟩) =
      (utf8Decode payload).map (fun cps =>
        (some cps, { s with sent := s.sent ++ [frame_bytes ⟨0, .deviceInformation, [0]⟩] })) := by
  unfold Sps30.get_device_info transact
  rw [show send_frame ⟨0, .deviceInformation, [0]⟩ =
    .ok (frame_bytes ⟨0, .deviceInformation, [0]⟩) from rfl]
  rw [receive_encode_with_state]
  cases h : utf8Decode payload <;> simp [h]

/-- C3: code-bug evidence — with the device answering state 0 both times,
a second start_measurement on a fresh session succeeds again and writes a
second request frame to the port, because the source never sets running
to true after a successful start; the claim (and the spec's testable
property) requires the second call to fail with DeviceError without
transmitting. -/
theorem c3_double_start :
    Sps30.start_measurement Sps30.new [0, 0, 0, 0, 255] =
      some (.ok (), ⟨false, [[0, 0, 2, 1, 3, 249]]⟩) ∧
    Sps30.start_measurement ⟨false, [[0, 0, 2, 1, 3, 249]]⟩ [0, 0, 0, 0, 255] =
      some (.ok (), ⟨false, [[0, 0, 2, 1, 3, 249], [0, 0, 2, 1, 3, 249]]⟩) :=
  ⟨rfl, rfl⟩

theorem transact_running (s : Sps30) (req : Frame) (resp : List Nat)
    (r : Nat × Frame) (s1 : Sps30) (h : transact s req resp = some (r, s1)) :
    s1.running = s.running := by
  unfold transact at h
  split at h
  · cases h
  · split at h
    · simp only [Option.some.injEq, Prod.mk.injEq] at h
      rw [← h.2]
    · cases h

theorem start_measurement_running (s : Sps30) (resp : List Nat)
    (r : Except DeviceError Unit) (s1 : Sps30)
    (h : Sps30.start_measurement s resp = some (r, s1)) :
    s1.running = s.running := by
  unfold Sps30.start_measurement at h
  split at h
  · simp only [Option.some.injEq, Prod.mk.injEq] at h
    rw [← h.2]
  · split at h
    · cases h
    · rename_i ht
      split at h <;>
      · simp only [Option.some.injEq, Prod.mk.injEq] at h
        rw [← h.2]
        exact transact_running _ _ _ _ _ ht

theorem device_reset_running (s : Sps30) (resp : List Nat)
    (r : Except DeviceError Unit) (s1 : Sps30)
    (h : Sps30.device_reset s resp = some (r, s1)) :
    s1.running = false := by
  unfold Sps30.device_reset at h
  split at h
  · cases h
  · simp only [Option.some.injEq, Prod.mk.injEq] at h
    rw [← h.2]

theorem get_device_info_running (s : Sps30) (resp : List Nat)
    (r : Option (List Nat)) (s1 : Sps30)
    (h : Sps30.get_device_info s resp = some (r, s1)) :
    s1.running = s.running := by
  unfold Sps30.get_device_info at h
  split at h
  · cases h
  · rename_i ht
    split at h
    · cases h
    · simp only [Option.some.injEq, Prod.mk.injEq] at h
      rw [← h.2]
      exact transact_running _ _ _ _ _ ht

theorem read_version_running (s : Sps30) (resp : List Nat)
    (r : Except DeviceError Sps30Version) (s1 : Sps30)
    (h : Sps30.read_version s resp = some (r, s1)) :
    s1.running = s.running := by
  unfold Sps30.read_version at h
  split at h
  · cases h
  · rename_i ht
    split at h <;>
    · simp only [Option.some.injEq, Prod.mk.injEq] at h
      rw [← h.2]
      exact transact_running _ _ _ _ _ ht

theorem read_measurement_running (s : Sps30) (resp : List Nat)
    (r : Except DeviceError (Option Sps30Measurement)) (s1 : Sps30)
    (h : Sps30.read_measurement s resp = some (r, s1)) :
    s1.running = s.running := by
  unfold Sps30.read_measurement at h
  split at h
  · cases h
  · rename_i ht
    split at h
    · cases h
    · simp only [Option.some.injEq, Prod.mk.injEq] at h
      rw [← h.2]
      exact transact_running _ _ _ _ _ ht

theorem read_device_status_running (s : Sps30) (resp : List Nat)
    (r : Except DeviceError (Option (List Sps30Fault))) (s1 : Sps30)
    (h : Sps30.read_device_status s resp = some (r, s1)) :
    s1.running = s.running := by
  unfold Sps30.read_device_status at h
  split at h
  · cases h
  · rename_i ht
    simp only [Option.some.injEq, Prod.mk.injEq] at h
    rw [← h.2]
    exact transact_running _ _ _ _ _ ht

/-- C9: in every reachable session state the running flag is false: new
starts it at false, device_reset forces it to false, and no public
operation — including a successful start_measurement, which omits setting
the flag — ever sets it to true, so the start-when-running guard in
start_measurement can never fire. -/
theorem c9_running_invariant (s : Sps30) (h : Reachable s) : s.running = false := by
  induction h with
  | new => rfl
  | start_measurement _ heq ih => rw [start_measurement_running _ _ _ _ heq]; exact ih
  | device_reset _ heq _ => exact device_reset_running _ _ _ _ heq
  | get_device_info _ heq ih => rw [get_device_info_running _ _ _ _ heq]; exact ih
  | read_version _ heq ih => rw [read_version_running _ _ _ _ heq]; exact ih
  | read_measurement _ heq ih => rw [read_measurement_running _ _ _ _ heq]; exact ih
  | read_device_status _ heq ih => rw [read_device_status_running _ _ _ _ heq]; exact ih

/-- Witness for C9 at the initial state. -/
theorem c9_running_invariant_witness : Sps30.new.running = false :=
  c9_running_invariant Sps30.new Reachable.new

end Sps30Model
